import Mathlib

/-!
Verification of the geospatial analytics dashboard (dashboard-maps).

Shallow embedding of the core logic:
  * `src/dashboard-maps/src/hooks/useWeatherData.ts` — cache keyed fetch,
    cache expiry, per-polygon representative values (`getPolygonAverage`,
    `getValueAtTime`).
  * the data-source sidebar — catalog of data sources with ordered
    threshold rules, add/remove of active sources.
  * the map view — polygon drawing state machine (`finishDrawing`).
  * the timeline slider — playback tick.
  * the dashboard index page — `updatePolygonColors`.

JavaScript numbers are modelled as rationals (`ℚ`); machine-level
floating point is not at issue in any of the verified properties.
Array indices passed around as JS numbers are modelled as integers
(`ℤ`), and `Array.prototype.slice` is given its JS semantics
(negative arguments count from the end).
-/

namespace DashboardMaps

/-- Semantics of JavaScript `Array.prototype.slice(start, stop)`:
negative bounds count from the end of the array, then both bounds are
clamped into `[0, length]` and the half-open window is extracted. -/
def jsSlice {α : Type} (l : List α) (start stop : Int) : List α :=
  let n : Int := l.length
  let s : Int := if start < 0 then max (n + start) 0 else min start n
  let e : Int := if stop < 0 then max (n + stop) 0 else min stop n
  (l.take e.toNat).drop s.toNat

/-- The four keys of a `WeatherDataPoint` record (`keyof WeatherDataPoint`
in the source). -/
inductive WField : Type
  | time
  | temperature_2m
  | relative_humidity_2m
  | wind_speed_10m
deriving DecidableEq

/-- A row of the transformed weather series (interface `WeatherDataPoint`). -/
structure WeatherDataPoint : Type where
  time : String
  temperature_2m : ℚ
  relative_humidity_2m : ℚ
  wind_speed_10m : ℚ
deriving DecidableEq

/-- Reading `point[field]` with the source's
`typeof value === 'number' ? value : 0` guard: the `time` field is a
string, so it reads as `0`. -/
def numOr0 (p : WeatherDataPoint) : WField → ℚ
  | .time => 0
  | .temperature_2m => p.temperature_2m
  | .relative_humidity_2m => p.relative_humidity_2m
  | .wind_speed_10m => p.wind_speed_10m

/-- Fetch parameters (interface `WeatherParams`); `hourly` is optional. -/
structure WeatherParams : Type where
  latitude : ℚ
  longitude : ℚ
  startDate : String
  endDate : String
  hourly : Option (List String)
deriving DecidableEq

/-- `CACHE_DURATION = 30 * 60 * 1000` (30 minutes in milliseconds). -/
def CACHE_DURATION : Int := 30 * 60 * 1000

/-- A cache entry (interface `CacheEntry`). -/
structure CacheEntry : Type where
  data : List WeatherDataPoint
  timestamp : Int
  params : String
deriving DecidableEq

/-- `generateCacheKey`: the template literal
`lat_lon_startDate_endDate_(hourly.join(',') or 'default')`.
An absent `hourly` list, and an empty join (which is falsy in JS),
both give the `'default'` suffix. Numbers are rendered through their
canonical string form; only key EQUALITY matters to the claims, and
number-to-string conversion is injective both in JS and here. -/
def generateCacheKey (params : WeatherParams) : String :=
  let joined : String :=
    match params.hourly with
    | none => "default"
    | some l => let j := String.intercalate "," l; if j = "" then "default" else j
  toString params.latitude ++ "_" ++ toString params.longitude ++ "_" ++
    params.startDate ++ "_" ++ params.endDate ++ "_" ++ joined

/-- `getPolygonAverage(coordinates, field, timeStart, timeEnd)` from
`useWeatherData.ts`: early 0 on empty series, vertex-mean centroid
(computed but unused), bounds `max(0, timeStart)` and
`min(length - 1, timeEnd)`, slice, 0 on the empty slice, else the mean
of the (numeric) field over the slice. -/
def getPolygonAverage (data : List WeatherDataPoint)
    (coordinates : List (ℚ × ℚ)) (field : WField)
    (timeStart timeEnd : Int) : ℚ :=
  if data.length = 0 then 0
  else
    let centroidSum := coordinates.foldl
      (fun acc c => (acc.1 + c.1, acc.2 + c.2)) ((0 : ℚ), (0 : ℚ))
    let _centroid := (centroidSum.1 / coordinates.length,
                      centroidSum.2 / coordinates.length)
    let startIndex : Int := max 0 timeStart
    let endIndex : Int := min ((data.length : Int) - 1) timeEnd
    let relevantData := jsSlice data startIndex (endIndex + 1)
    if relevantData.length = 0 then 0
    else (relevantData.foldl (fun acc p => acc + numOr0 p field) 0) /
      (relevantData.length : ℚ)

/-- `getValueAtTime(coordinates, field, timeIndex)` from
`useWeatherData.ts`: 0 on empty series or out-of-range index, else the
numeric field of the sample at that index. -/
def getValueAtTime (data : List WeatherDataPoint)
    (coordinates : List (ℚ × ℚ)) (field : WField) (timeIndex : Int) : ℚ :=
  if data.length = 0 ∨ timeIndex < 0 ∨ (data.length : Int) ≤ timeIndex then 0
  else numOr0 (data.getD timeIndex.toNat ⟨"", 0, 0, 0⟩) field

/-- Lookup in the cache `Map` (modelled as an association list in
insertion order, as a JS `Map` iterates). -/
def lookupKey (cache : List (String × CacheEntry)) (key : String) :
    Option CacheEntry :=
  (cache.find? (fun kv => kv.1 = key)).map Prod.snd

/-- `Map.set`: replace the value at an existing key in place, else
append the pair at the end. -/
def setKey (cache : List (String × CacheEntry)) (key : String)
    (v : CacheEntry) : List (String × CacheEntry) :=
  if cache.any (fun kv => kv.1 = key) then
    cache.map (fun kv => if kv.1 = key then (key, v) else kv)
  else cache ++ [(key, v)]

/-- Loading the persisted cache on mount (`useEffect` in
`useWeatherData.ts`): every entry whose age reaches `CACHE_DURATION`
is filtered out before the map becomes visible. -/
def loadCache (now : Int) (entries : List (String × CacheEntry)) :
    List (String × CacheEntry) :=
  entries.filter (fun kv => now - kv.2.timestamp < CACHE_DURATION)

/-- Outcome of the single external request issued by
`fetchWeatherData`. `ok` carries the columnar `result.hourly` payload
(each metric column may be absent, as `result.hourly.<field>?.`
allows); the other constructors are the three throw sites: a network
error from `fetch` itself, a non-2xx status, and a response without
an `hourly` object. -/
inductive FetchOutcome : Type
  | ok (timeCol : List String) (tempCol humCol windCol : Option (List ℚ))
  | networkError
  | httpError (status : Nat)
  | noHourly
deriving DecidableEq

/-- True for the three request-failure outcomes. -/
def FetchOutcome.isFailure : FetchOutcome → Bool
  | .ok _ _ _ _ => false
  | _ => true

/-- Reading `column?.[index] || 0`: absent column, absent index and a
falsy 0 all give 0. -/
def colAt (col : Option (List ℚ)) (i : Nat) : ℚ :=
  (col.getD []).getD i 0

/-- Row-wise transformation of the columnar response
(`result.hourly.time.map((time, index) => ...)`). -/
def transformData (timeCol : List String)
    (tempCol humCol windCol : Option (List ℚ)) : List WeatherDataPoint :=
  timeCol.enum.map (fun it =>
    ⟨it.2, colAt tempCol it.1, colAt humCol it.1, colAt windCol it.1⟩)

/-- Observable result of one `fetchWeatherData` call: the cache map
after the call, the series shown (`setData`), the surfaced error
(`setError`), and the toast titles emitted, in order. -/
structure FetchResult : Type where
  cache : List (String × CacheEntry)
  data : List WeatherDataPoint
  error : Option String
  toasts : List String
deriving DecidableEq

/-- A rendering of `JSON.stringify(params)` stored in the cache entry
(field `params`); never read back, so only its presence is modelled. -/
def stringifyParams (p : WeatherParams) : String :=
  generateCacheKey p

/-- The branch of `fetchWeatherData` that issues the external request
(reached only when no valid cache entry exists). On success the
transformed series is shown and inserted into the cache; on any
failure the error is surfaced via `setError` plus a destructive toast,
and a synthesized mock series is shown WITHOUT touching the cache.
The mock generator (`generateMockData`) draws on `Math.random` and
floating-point `Math.sin`, so its output is passed in as the
uninterpreted argument `mock`; no verified property depends on its
contents. -/
def requestPath (cache : List (String × CacheEntry)) (now : Int)
    (p : WeatherParams) (outcome : FetchOutcome)
    (mock : List WeatherDataPoint) : FetchResult :=
  match outcome with
  | .ok timeCol tempCol humCol windCol =>
      let transformed := transformData timeCol tempCol humCol windCol
      { cache := setKey cache (generateCacheKey p)
          ⟨transformed, now, stringifyParams p⟩
        data := transformed
        error := none
        toasts := ["Weather Data Loaded"] }
  | .networkError =>
      { cache := cache, data := mock
        error := some "Failed to fetch weather data"
        toasts := ["Error Loading Weather Data", "Using Mock Data"] }
  | .httpError status =>
      { cache := cache, data := mock
        error := some ("Weather API error: " ++ toString status)
        toasts := ["Error Loading Weather Data", "Using Mock Data"] }
  | .noHourly =>
      { cache := cache, data := mock
        error := some "No hourly data received from API"
        toasts := ["Error Loading Weather Data", "Using Mock Data"] }

/-- One call of `fetchWeatherData(params)` as a transition on the
cache map: a cache entry younger than `CACHE_DURATION` is returned
immediately with no request; otherwise the external request runs and
`requestPath` describes every outcome. -/
def fetchWeatherData (cache : List (String × CacheEntry)) (now : Int)
    (p : WeatherParams) (outcome : FetchOutcome)
    (mock : List WeatherDataPoint) : FetchResult :=
  match lookupKey cache (generateCacheKey p) with
  | some entry =>
      if now - entry.timestamp < CACHE_DURATION then
        { cache := cache, data := entry.data, error := none
          toasts := ["Data Loaded from Cache"] }
      else requestPath cache now p outcome mock
  | none => requestPath cache now p outcome mock

/-- One threshold rule of a data source (value, color, comparator
symbol, label). -/
structure ThresholdRule : Type where
  value : ℚ
  color : String
  operator : String
  label : String
deriving DecidableEq

/-- A data source catalog entry (interface `DataSource` in the
sidebar; the decorative icon is omitted). -/
structure DataSource : Type where
  id : String
  name : String
  field : String
  unit : String
  description : String
  low : ThresholdRule
  medium : ThresholdRule
  high : ThresholdRule
  isActive : Bool
deriving DecidableEq

/-- The thresholds in their authored evaluation order
low → medium → high. -/
def DataSource.orderedThresholds (d : DataSource) : List ThresholdRule :=
  [d.low, d.medium, d.high]

/-- Catalog entry `temperature_2m` of `availableDataSources`. -/
def temperatureSource : DataSource :=
  { id := "temperature_2m", name := "Temperature", field := "temperature_2m"
    unit := "°C", description := "Air temperature at 2 meters above ground"
    low := ⟨10, "#22c55e", "<", "Cold"⟩
    medium := ⟨25, "#f59e0b", "<", "Moderate"⟩
    high := ⟨25, "#ef4444", ">=", "Hot"⟩
    isActive := true }

/-- Catalog entry `relative_humidity_2m` of `availableDataSources`. -/
def humiditySource : DataSource :=
  { id := "relative_humidity_2m", name := "Humidity"
    field := "relative_humidity_2m", unit := "%"
    description := "Relative humidity at 2 meters above ground"
    low := ⟨30, "#22c55e", "<", "Dry"⟩
    medium := ⟨70, "#f59e0b", "<", "Comfortable"⟩
    high := ⟨70, "#ef4444", ">=", "Humid"⟩
    isActive := false }

/-- Catalog entry `wind_speed_10m` of `availableDataSources`. -/
def windSource : DataSource :=
  { id := "wind_speed_10m", name := "Wind Speed", field := "wind_speed_10m"
    unit := "km/h", description := "Wind speed at 10 meters above ground"
    low := ⟨10, "#22c55e", "<", "Calm"⟩
    medium := ⟨30, "#f59e0b", "<", "Breezy"⟩
    high := ⟨30, "#ef4444", ">=", "Windy"⟩
    isActive := false }

/-- The static catalog `availableDataSources`. -/
def availableDataSources : List DataSource :=
  [temperatureSource, humiditySource, windSource]

/-- Looking a catalog entry up by its field name
(`availableDataSources.find(s => s.field === value)`). -/
def sourceForField (f : String) : Option DataSource :=
  availableDataSources.find? (fun d => d.field = f)

/-- Satisfaction of one comparator from the sidebar's operator select
(`<`, `<=`, `>`, `>=`, `=`), read off the spec's
`(value, comparator, thresholdValue)` predicate. -/
def cmpSat (v : ℚ) (op : String) (t : ℚ) : Bool :=
  if op = "<" then decide (v < t)
  else if op = "<=" then decide (v ≤ t)
  else if op = ">" then decide (t < v)
  else if op = ">=" then decide (t ≤ v)
  else if op = "=" then decide (v = t)
  else false

/-- Modelled from the spec: ordered threshold evaluation — the FIRST
rule whose predicate is satisfied determines the color, with the
neutral default `#8b5cf6` when no rule matches. The recolor pass in
the dashboard page does not itself consult a threshold list, so this
definition renders the spec's words for comparison with the code. -/
def firstMatchColor (rules : List ThresholdRule) (v : ℚ) : String :=
  match rules.find? (fun r => cmpSat v r.operator r.value) with
  | some r => r.color
  | none => "#8b5cf6"

/-- The sidebar's working state: the mutable list of active data
sources (initially just the temperature entry) and which one is being
edited. -/
structure RegistryState : Type where
  activeDataSources : List DataSource
  editingIndex : Option Nat
deriving DecidableEq

/-- `array.filter((_, i) => i !== index)`: keep every element whose
position differs from `index`, counting positions from `k`. -/
def filterIdxNe {α : Type} (index : Nat) : Nat → List α → List α
  | _, [] => []
  | k, a :: t =>
      if k = index then filterIdxNe index (k + 1) t
      else a :: filterIdxNe index (k + 1) t

/-- `removeDataSource(index)` from the sidebar: filter the element at
`index` out of the active list and close the editor. No emptiness
check happens here. -/
def removeDataSource (index : Nat) (st : RegistryState) : RegistryState :=
  { activeDataSources := filterIdxNe index 0 st.activeDataSources
    editingIndex := none }

/-- The removal control as the user can actually reach it: the sidebar
renders the trash button for a row only under the guard
`activeDataSources.length > 1`, so a click is a no-op otherwise. -/
def removeDataSourceClick (index : Nat) (st : RegistryState) :
    RegistryState :=
  if 1 < st.activeDataSources.length then removeDataSource index st else st

/-- A polygon record of the dashboard page (interface `Polygon`). -/
structure Polygon : Type where
  id : String
  name : String
  coordinates : List (ℚ × ℚ)
  dataSource : String
  color : String
  value : Option ℚ
deriving DecidableEq

/-- `Math.round(x)` in JS: round half toward positive infinity. -/
def jsRound (x : ℚ) : Int := ⌊x + 1 / 2⌋

/-- `Math.round(avgValue * 10) / 10`. -/
def roundTo1 (x : ℚ) : ℚ := (jsRound (x * 10) : ℚ) / 10

/-- The hardcoded color chain of `updatePolygonColors`:
`< 10` green, else `< 25` orange, else red. The initial purple default
is overwritten on every path of the chain. -/
def applyColorRules (avgValue : ℚ) : String :=
  if avgValue < 10 then "#22c55e"
  else if avgValue < 25 then "#f59e0b"
  else "#ef4444"

/-- The representative value `updatePolygonColors` computes for one
polygon: the instant sample in single-time mode, the range average
otherwise — always for field `temperature_2m`, whatever data source
the polygon is assigned. -/
def representativeValue (isSingleTime : Bool)
    (data : List WeatherDataPoint) (coordinates : List (ℚ × ℚ))
    (startHour endHour : Int) : ℚ :=
  if isSingleTime then getValueAtTime data coordinates .temperature_2m startHour
  else getPolygonAverage data coordinates .temperature_2m startHour endHour

/-- `updatePolygonColors(startHour, endHour)` from the dashboard page:
map over the polygons, compute the representative value, store it
rounded to one decimal, and color through the hardcoded chain. -/
def updatePolygonColors (isSingleTime : Bool)
    (data : List WeatherDataPoint) (startHour endHour : Int)
    (polygons : List Polygon) : List Polygon :=
  polygons.map (fun polygon =>
    let avgValue := representativeValue isSingleTime data
      polygon.coordinates startHour endHour
    { polygon with value := some (roundTo1 avgValue)
                   color := applyColorRules avgValue })

/-- The map view's drawing session state: the drawing flag, the
pending clicked vertices (`currentPolygon`), and the name draft. -/
structure DrawState : Type where
  isDrawing : Bool
  currentPolygon : List (ℚ × ℚ)
  newPolygonName : String
deriving DecidableEq

/-- `finishDrawing()` from the map view, composed with the page's
`onPolygonCreate` append. Fewer than 3 pending points: an error toast
only, both the session and the polygon list are untouched. Otherwise:
close the ring by appending the first pending point, default the name
to `Region (count+1)` when the draft is empty (falsy), create the
polygon, append it, and reset the session to idle. `now` stands for
`Date.now()` used in the generated id. -/
def finishDrawing (now : Int) (st : DrawState) (polygons : List Polygon) :
    DrawState × List Polygon :=
  if st.currentPolygon.length < 3 then (st, polygons)
  else
    let newPolygon : Polygon :=
      { id := "polygon-" ++ toString now
        name := if st.newPolygonName = "" then
                  "Region " ++ toString (polygons.length + 1)
                else st.newPolygonName
        coordinates := st.currentPolygon ++ [st.currentPolygon.headI]
        dataSource := "temperature_2m"
        color := "#8b5cf6"
        value := none }
    (⟨false, [], ""⟩, polygons ++ [newPolygon])

/-- The timeline slider's state: mode, playing flag, the single-point
hour and the range window, all slider values in `[0, 720]`. -/
structure TimelineState : Type where
  isRangeMode : Bool
  isPlaying : Bool
  currentValue : Int
  rangeStart : Int
  rangeEnd : Int
deriving DecidableEq

/-- `maxHours = 720` (30 days of hours). -/
def maxHours : Int := 720

/-- One playback tick of the timeline slider (the `setInterval`
callback, which only runs while `isPlaying`). Range mode: candidate
edges `min(start+1, 720-width)` and `min(end+1, 720)`; when the
candidate end reaches 720 playback pauses and the window stays put,
else the window moves. Single-point mode analogously with
`min(value+1, 720)`. -/
def tick (s : TimelineState) : TimelineState :=
  if s.isPlaying = false then s
  else if s.isRangeMode then
    let rangeSize := s.rangeEnd - s.rangeStart
    let newStart := min (s.rangeStart + 1) (maxHours - rangeSize)
    let newEnd := min (s.rangeEnd + 1) maxHours
    if maxHours ≤ newEnd then { s with isPlaying := false }
    else { s with rangeStart := newStart, rangeEnd := newEnd }
  else
    let newValue := min (s.currentValue + 1) maxHours
    if maxHours ≤ newValue then { s with isPlaying := false }
    else { s with currentValue := newValue }

/-- Arithmetic mean of a field over a list of samples (0 on the empty
list, since `ℚ` division by zero is 0). -/
def meanNum (l : List WeatherDataPoint) (field : WField) : ℚ :=
  (l.map (fun p => numOr0 p field)).sum / (l.length : ℚ)

/-- Integer clamping `clamp(x, lo, hi)` (for `lo ≤ hi`: the nearest
point of `[lo, hi]`). -/
def clampI (x lo hi : Int) : Int :=
  if x < lo then lo else if hi < x then hi else x

/-- Modelled from the spec: the Range-mode representative value as the
claim words it — the arithmetic mean of the samples over the inclusive
index interval `[clamp(start,0,N-1), clamp(end,0,N-1)]`, an empty
slice yielding 0. Stated for comparison with `getPolygonAverage`. -/
def claimRangeValue (data : List WeatherDataPoint) (field : WField)
    (s e : Int) : ℚ :=
  let n : Int := data.length
  let a := clampI s 0 (n - 1)
  let b := clampI e 0 (n - 1)
  let slice := (data.drop a.toNat).take (b - a + 1).toNat
  if slice.length = 0 then 0 else meanNum slice field

/-- The Range-mode representative value as the code actually computes
it on windows `0 ≤ start ≤ end`: the start index is clamped only from
below, so the averaged interval is `[start, min(end, N-1)]`, and it is
empty (value 0) as soon as `start > N-1`; 0 as well on the empty
series. -/
def amendedRangeValue (data : List WeatherDataPoint) (field : WField)
    (s e : Int) : ℚ :=
  if data.length = 0 then 0
  else
    let b : Int := min e ((data.length : Int) - 1)
    if s ≤ b then
      meanNum ((data.drop s.toNat).take (b - s + 1).toNat) field
    else 0

lemma foldl_add_numOr0 (field : WField) (l : List WeatherDataPoint)
    (a : ℚ) :
    l.foldl (fun acc p => acc + numOr0 p field) a =
      a + (l.map (fun p => numOr0 p field)).sum := by
  induction l generalizing a with
  | nil => simp
  | cons p t ih => simp [List.foldl_cons, ih, add_assoc]

lemma jsSlice_of_nonneg {α : Type} (l : List α) (s e : Int)
    (hs : 0 ≤ s) (he : 0 ≤ e) :
    jsSlice l s e =
      (l.take (min e (l.length : Int)).toNat).drop
        (min s (l.length : Int)).toNat := by
  unfold jsSlice
  simp [not_lt.mpr hs, not_lt.mpr he]

/-- On windows `0 ≤ s ≤ e` the code's Range-mode value is exactly
`amendedRangeValue` (for any polygon geometry). -/
lemma getPolygonAverage_eq_amended (data : List WeatherDataPoint)
    (coordinates : List (ℚ × ℚ)) (field : WField) (s e : Int)
    (hs : 0 ≤ s) (hse : s ≤ e) :
    getPolygonAverage data coordinates field s e =
      amendedRangeValue data field s e := by
  rcases Nat.eq_zero_or_pos data.length with hn | hn
  · simp [getPolygonAverage, amendedRangeValue, hn]
  · have hn0 : data.length ≠ 0 := Nat.pos_iff_ne_zero.mp hn
    have hn' : (1 : Int) ≤ (data.length : Int) := by exact_mod_cast hn
    have hmax : max 0 s = s := max_eq_right hs
    have hminc : min ((data.length : Int) - 1) e = min e ((data.length : Int) - 1) :=
      min_comm _ _
    have hble : min e ((data.length : Int) - 1) ≤ (data.length : Int) - 1 :=
      min_le_right _ _
    have hb0 : (0 : Int) ≤ min e ((data.length : Int) - 1) :=
      le_min (by omega) (by omega)
    have hslice : jsSlice data s (min e ((data.length : Int) - 1) + 1) =
        (data.take (min e ((data.length : Int) - 1) + 1).toNat).drop
          (min s (data.length : Int)).toNat := by
      rw [jsSlice_of_nonneg data s _ hs (by omega)]
      rw [min_eq_left (by omega : min e ((data.length : Int) - 1) + 1 ≤ (data.length : Int))]
    simp only [getPolygonAverage, amendedRangeValue, hmax, hminc, hslice,
      if_neg hn0]
    by_cases hcase : s ≤ min e ((data.length : Int) - 1)
    · have hsn : min s (data.length : Int) = s := min_eq_left (by omega)
      rw [hsn, List.drop_take]
      have htn : (min e ((data.length : Int) - 1) + 1).toNat - s.toNat =
          (min e ((data.length : Int) - 1) - s + 1).toNat := by omega
      rw [htn, if_pos hcase]
      have hlen :
          ((data.drop s.toNat).take
            (min e ((data.length : Int) - 1) - s + 1).toNat).length ≠ 0 := by
        rw [List.length_take, List.length_drop]
        omega
      rw [if_neg hlen]
      rw [meanNum, foldl_add_numOr0, zero_add]
    · have hbn : min e ((data.length : Int) - 1) = (data.length : Int) - 1 := by
        rcases min_cases e ((data.length : Int) - 1) with ⟨h1, _⟩ | ⟨h1, _⟩ <;> omega
      have hsn : min s (data.length : Int) = (data.length : Int) :=
        min_eq_right (by omega)
      have hnil : (data.take (min e ((data.length : Int) - 1) + 1).toNat).drop
          (min s (data.length : Int)).toNat = [] := by
        apply List.drop_eq_nil_of_le
        rw [List.length_take]
        omega
      rw [hnil, if_neg hcase]
      simp


/-- The Range-mode computation on the degenerate window `(s, s)`
agrees with the Instant-mode computation at `s`, for any two polygon
geometries. -/
lemma range_agrees_instant (data : List WeatherDataPoint)
    (c1 c2 : List (ℚ × ℚ)) (field : WField) (s : Int) (hs : 0 ≤ s) :
    getPolygonAverage data c1 field s s = getValueAtTime data c2 field s := by
  rw [getPolygonAverage_eq_amended data c1 field s s hs le_rfl]
  rcases Nat.eq_zero_or_pos data.length with hn | hn
  · simp [amendedRangeValue, getValueAtTime, hn]
  · have hn0 : data.length ≠ 0 := Nat.pos_iff_ne_zero.mp hn
    by_cases hrange : s ≤ (data.length : Int) - 1
    · have hb : min s ((data.length : Int) - 1) = s := min_eq_left hrange
      have hlt : s.toNat < data.length := by omega
      have hdrop : data.drop s.toNat =
          data[s.toNat] :: data.drop (s.toNat + 1) :=
        List.drop_eq_getElem_cons hlt
      simp only [amendedRangeValue, if_neg hn0, hb]
      rw [if_pos (le_refl s)]
      rw [show s - s + 1 = 1 by ring]
      rw [Int.toNat_one, hdrop]
      rw [show (data[s.toNat] :: data.drop (s.toNat + 1)).take 1 =
        [data[s.toNat]] from rfl]
      rw [getValueAtTime, if_neg (by push_neg; omega)]
      rw [List.getD_eq_getElem data ⟨"", 0, 0, 0⟩ hlt]
      simp [meanNum]
    · rw [amendedRangeValue, if_neg hn0]
      simp only [min_eq_right (by omega : (data.length : Int) - 1 ≤ s)]
      rw [if_neg (by omega : ¬ s ≤ (data.length : Int) - 1)]
      rw [getValueAtTime,
        if_pos (by omega : data.length = 0 ∨ s < 0 ∨ (data.length : Int) ≤ s)]

/-- The hardcoded color chain of the dashboard page computes exactly
the first-match evaluation of the temperature source's ordered
threshold list (`<10` Cold, `<25` Moderate, `>=25` Hot): in
particular a value like 24.9 takes the SECOND rule, not the third,
and some rule always matches, so the neutral default never results. -/
lemma applyColorRules_eq_firstMatch (v : ℚ) :
    applyColorRules v =
      firstMatchColor temperatureSource.orderedThresholds v := by
  by_cases h10 : v < 10
  · simp [applyColorRules, firstMatchColor, temperatureSource,
      DataSource.orderedThresholds, cmpSat, List.find?, h10]
  · by_cases h25 : v < 25
    · simp [applyColorRules, firstMatchColor, temperatureSource,
        DataSource.orderedThresholds, cmpSat, List.find?, h10, h25]
    · simp [applyColorRules, firstMatchColor, temperatureSource,
        DataSource.orderedThresholds, cmpSat, List.find?, h10, h25,
        not_lt.mp h25]

lemma filterIdxNe_of_lt {α : Type} (index k : Nat) (l : List α)
    (h : index < k) : filterIdxNe index k l = l := by
  induction l generalizing k with
  | nil => rfl
  | cons a t ih =>
      rw [filterIdxNe, if_neg (by omega)]
      rw [ih (k + 1) (by omega)]

lemma length_filterIdxNe {α : Type} (index k : Nat) (l : List α) :
    l.length - 1 ≤ (filterIdxNe index k l).length := by
  induction l generalizing k with
  | nil => simp [filterIdxNe]
  | cons a t ih =>
      by_cases hk : k = index
      · rw [filterIdxNe, if_pos hk]
        rw [filterIdxNe_of_lt index (k + 1) t (by omega)]
        simp
      · rw [filterIdxNe, if_neg hk]
        have := ih (k + 1)
        simp only [List.length_cons]
        omega

/-- Claim C10: the per-polygon representative value is independent of
the polygon's geometry — for every field, every time index or
time-bound pair, and any two coordinate lists, the Instant-mode and
Range-mode computations return identical results (the vertex-mean
centroid computed inside the Range-mode function is never used in the
result). -/
theorem C10_geometry_independent (data : List WeatherDataPoint)
    (field : WField) (s e t : Int) (c1 c2 : List (ℚ × ℚ)) :
    getPolygonAverage data c1 field s e = getPolygonAverage data c2 field s e ∧
    getValueAtTime data c1 field t = getValueAtTime data c2 field t :=
  ⟨rfl, rfl⟩

/-- Claim C7: for every series, every field and every hour index
`0 ≤ s ≤ 720`, the Range-mode computation on the degenerate window
`(s, s)` yields the same value as the Instant-mode computation at `s`,
including the out-of-range and empty-series cases where both yield 0. -/
theorem C7_degenerate_range_is_instant (data : List WeatherDataPoint)
    (c : List (ℚ × ℚ)) (field : WField) (s : Int)
    (hs : 0 ≤ s) (hs720 : s ≤ 720) :
    getPolygonAverage data c field s s = getValueAtTime data c field s :=
  range_agrees_instant data c c field s hs

/-- Claim C7, witness: a concrete in-range instance (series of length
one, index 0) with both hypotheses discharged. -/
theorem C7_degenerate_range_is_instant_witness :
    getPolygonAverage [⟨"t0", 7, 0, 0⟩] [] WField.temperature_2m 0 0 =
      getValueAtTime [⟨"t0", 7, 0, 0⟩] [] WField.temperature_2m 0 :=
  C7_degenerate_range_is_instant [⟨"t0", 7, 0, 0⟩] [] WField.temperature_2m 0
    (by decide) (by decide)

/-- Claim C2, counterexample: the claim clamps the start index into
`[0, N-1]`, but the code clamps it only from below. On the series
`[5]` (one sample) and the window `(1, 1)` — which satisfies
`0 ≤ start ≤ end ≤ 720` — the claimed value is the sample `5`
(interval `[0, 0]` after clamping), while the code computes the empty
slice and returns `0`. -/
theorem C2_counterexample :
    getPolygonAverage [⟨"t0", 5, 0, 0⟩] [] WField.temperature_2m 1 1 = 0 ∧
    claimRangeValue [⟨"t0", 5, 0, 0⟩] WField.temperature_2m 1 1 = 5 ∧
    getPolygonAverage [⟨"t0", 5, 0, 0⟩] [] WField.temperature_2m 1 1 ≠
      claimRangeValue [⟨"t0", 5, 0, 0⟩] WField.temperature_2m 1 1 := by
  have h1 : getPolygonAverage [⟨"t0", 5, 0, 0⟩] [] WField.temperature_2m 1 1 = 0 := by
    decide
  have h2 : claimRangeValue [⟨"t0", 5, 0, 0⟩] WField.temperature_2m 1 1 = 5 := by
    norm_num [claimRangeValue, clampI, meanNum, numOr0]
  exact ⟨h1, h2, by rw [h1, h2]; norm_num⟩

/-- Claim C2 as amended: for every window `0 ≤ start ≤ end ≤ 720`, the
Range-mode representative value is the arithmetic mean of the samples
over `[start, min(end, N-1)]` — the start index is NOT clamped from
above — and it is 0 whenever that interval is empty (start beyond the
last sample, or an empty series). -/
theorem C2_range_value (data : List WeatherDataPoint)
    (c : List (ℚ × ℚ)) (field : WField) (s e : Int)
    (hs : 0 ≤ s) (hse : s ≤ e) (he : e ≤ 720) :
    getPolygonAverage data c field s e = amendedRangeValue data field s e :=
  getPolygonAverage_eq_amended data c field s e hs hse

/-- Claim C2 as amended, witness: a concrete window `(0, 2)` over a
two-sample series, all hypotheses discharged. -/
theorem C2_range_value_witness :
    getPolygonAverage [⟨"t0", 4, 0, 0⟩, ⟨"t1", 6, 0, 0⟩] []
        WField.temperature_2m 0 2 =
      amendedRangeValue [⟨"t0", 4, 0, 0⟩, ⟨"t1", 6, 0, 0⟩]
        WField.temperature_2m 0 2 :=
  C2_range_value [⟨"t0", 4, 0, 0⟩, ⟨"t1", 6, 0, 0⟩] []
    WField.temperature_2m 0 2 (by decide) (by decide) (by decide)

/-- Claim C1, counterexample: the recolor pass does not evaluate the
threshold list of the polygon's ASSIGNED data source. A polygon
assigned `relative_humidity_2m` whose representative value is 15
(under the temperature field the code actually reads and under the
polygon's own field alike) is colored `#f59e0b` by the code's
hardcoded temperature chain, while first-match evaluation of the
humidity source's ordered thresholds (`<30` Dry) yields `#22c55e`. -/
theorem C1_counterexample :
    sourceForField "relative_humidity_2m" = some humiditySource ∧
    representativeValue false [⟨"t0", 15, 15, 15⟩] [((0 : ℚ), (0 : ℚ))]
      0 0 = 15 ∧
    getPolygonAverage [⟨"t0", 15, 15, 15⟩] [((0 : ℚ), (0 : ℚ))]
      WField.relative_humidity_2m 0 0 = 15 ∧
    (updatePolygonColors false [⟨"t0", 15, 15, 15⟩] 0 0
        [⟨"p1", "Region 1", [((0 : ℚ), (0 : ℚ))], "relative_humidity_2m",
          "#8b5cf6", none⟩]).map Polygon.color = ["#f59e0b"] ∧
    firstMatchColor humiditySource.orderedThresholds 15 = "#22c55e" := by
  have havg : representativeValue false [⟨"t0", 15, 15, 15⟩]
      [((0 : ℚ), (0 : ℚ))] 0 0 = 15 := by
    norm_num [representativeValue, getPolygonAverage, jsSlice, numOr0]
  have hhum : getPolygonAverage [⟨"t0", 15, 15, 15⟩] [((0 : ℚ), (0 : ℚ))]
      WField.relative_humidity_2m 0 0 = 15 := by
    norm_num [getPolygonAverage, jsSlice, numOr0]
  refine ⟨by decide, havg, hhum, ?_, ?_⟩
  · simp only [updatePolygonColors, List.map_cons, List.map_nil, havg]
    norm_num [applyColorRules]
  · norm_num [firstMatchColor, humiditySource, DataSource.orderedThresholds,
      cmpSat, List.find?]

/-- Claim C1 as amended: the recolor pass ignores the polygon's
assigned data source entirely — for every polygon it computes the
representative value of field `temperature_2m` and colors it by the
fixed chain `<10 / <25 / otherwise`, which coincides with first-match
evaluation of the TEMPERATURE source's ordered threshold list; that
evaluation is total, so the neutral default color is never produced. -/
theorem C1_recolor_fixed_temperature_thresholds :
    (∀ (single : Bool) (data : List WeatherDataPoint) (s e : Int)
        (ps : List Polygon),
      updatePolygonColors single data s e ps = ps.map (fun p =>
        { p with
          value := some (roundTo1 (representativeValue single data
            p.coordinates s e))
          color := firstMatchColor temperatureSource.orderedThresholds
            (representativeValue single data p.coordinates s e) })) ∧
    (∀ v : ℚ, firstMatchColor temperatureSource.orderedThresholds v ≠
      "#8b5cf6") := by
  constructor
  · intro single data s e ps
    simp [updatePolygonColors, applyColorRules_eq_firstMatch]
  · intro v
    rw [← applyColorRules_eq_firstMatch]
    unfold applyColorRules
    split_ifs <;> decide

/-- Claim C3, counterexample: `generateCacheKey` joins the field list
in the order given, without sorting. Two parameter records that agree
on latitude, longitude and both dates, and whose field lists are
permutations of each other, produce different keys. -/
theorem C3_counterexample :
    (⟨1, 2, "2024-01-01", "2024-01-31",
        some ["relative_humidity_2m", "temperature_2m"]⟩ :
      WeatherParams).latitude =
      (⟨1, 2, "2024-01-01", "2024-01-31",
          some ["temperature_2m", "relative_humidity_2m"]⟩ :
        WeatherParams).latitude ∧
    (["relative_humidity_2m", "temperature_2m"] : List String).Perm
      ["temperature_2m", "relative_humidity_2m"] ∧
    generateCacheKey ⟨1, 2, "2024-01-01", "2024-01-31",
        some ["relative_humidity_2m", "temperature_2m"]⟩ ≠
      generateCacheKey ⟨1, 2, "2024-01-01", "2024-01-31",
        some ["temperature_2m", "relative_humidity_2m"]⟩ := by
  refine ⟨rfl, by decide, ?_⟩
  decide

/-- Claim C3 as amended: the cache key is a deterministic function of
(latitude, longitude, startDate, endDate, field list IN THE GIVEN
ORDER) — the field list is not sorted, so only records whose field
lists are equal as sequences are guaranteed the same key. -/
theorem C3_key_deterministic (p1 p2 : WeatherParams)
    (hlat : p1.latitude = p2.latitude)
    (hlon : p1.longitude = p2.longitude)
    (hstart : p1.startDate = p2.startDate)
    (hend : p1.endDate = p2.endDate)
    (hfields : p1.hourly = p2.hourly) :
    generateCacheKey p1 = generateCacheKey p2 := by
  cases p1
  cases p2
  simp only at hlat hlon hstart hend hfields
  subst hlat hlon hstart hend hfields
  rfl

/-- Claim C3 as amended, witness: the theorem applied at two concrete
records with equal components. -/
theorem C3_key_deterministic_witness :
    generateCacheKey ⟨40, -74, "2024-01-01", "2024-01-31", none⟩ =
      generateCacheKey ⟨40, -74, "2024-01-01", "2024-01-31", none⟩ :=
  C3_key_deterministic _ _ rfl rfl rfl rfl rfl

/-- Claim C4, counterexample: `removeDataSource` itself performs no
emptiness check — called in a state with exactly one active source
(the initial state, holding only the temperature source) it removes
it, leaving zero active sources, where the claim says the source
stays active. -/
theorem C4_counterexample :
    (⟨[temperatureSource], none⟩ : RegistryState).activeDataSources.length
      = 1 ∧
    (removeDataSource 0 ⟨[temperatureSource], none⟩).activeDataSources
      = [] := by
  exact ⟨rfl, rfl⟩

/-- Claim C4 as amended: the refusal lives in the UI, not in the
removal function — the sidebar renders the remove control only while
more than one source is active, so removal as actually invocable
(`removeDataSourceClick`) never empties the active set: from any
state with at least one active source, at least one remains. -/
theorem C4_remove_keeps_one (index : Nat) (st : RegistryState)
    (h : 1 ≤ st.activeDataSources.length) :
    1 ≤ (removeDataSourceClick index st).activeDataSources.length := by
  rw [removeDataSourceClick]
  by_cases hlen : 1 < st.activeDataSources.length
  · rw [if_pos hlen]
    have := length_filterIdxNe index 0 st.activeDataSources
    simp only [removeDataSource]
    omega
  · rw [if_neg hlen]
    exact h

/-- Claim C4 as amended, witness: removing index 0 from a two-source
state leaves at least one active source. -/
theorem C4_remove_keeps_one_witness :
    1 ≤ (removeDataSourceClick 0
      ⟨[temperatureSource, humiditySource], none⟩).activeDataSources.length :=
  C4_remove_keeps_one 0 ⟨[temperatureSource, humiditySource], none⟩
    (by decide)

/-- Claim C5: a fetch call that ends in request failure (network
error, non-2xx status, or missing hourly payload) leaves the cache map
exactly as it was, shows the synthesized fallback series for this call
only, surfaces a non-fatal error value, and emits the two failure
toasts. The hypothesis states that no valid cache entry short-circuits
the call (otherwise no request is issued at all). -/
theorem C5_failure_not_cached (cache : List (String × CacheEntry))
    (now : Int) (p : WeatherParams) (outcome : FetchOutcome)
    (mock : List WeatherDataPoint)
    (hmiss : ∀ entry, lookupKey cache (generateCacheKey p) = some entry →
      CACHE_DURATION ≤ now - entry.timestamp)
    (hfail : outcome.isFailure = true) :
    (fetchWeatherData cache now p outcome mock).cache = cache ∧
    (fetchWeatherData cache now p outcome mock).data = mock ∧
    (fetchWeatherData cache now p outcome mock).error.isSome = true ∧
    (fetchWeatherData cache now p outcome mock).toasts =
      ["Error Loading Weather Data", "Using Mock Data"] := by
  have hreq : fetchWeatherData cache now p outcome mock =
      requestPath cache now p outcome mock := by
    cases hlook : lookupKey cache (generateCacheKey p) with
    | none => simp only [fetchWeatherData, hlook]
    | some entry =>
        have := hmiss entry hlook
        simp only [fetchWeatherData, hlook]
        rw [if_neg (by omega)]
  rw [hreq]
  cases outcome with
  | ok timeCol tempCol humCol windCol =>
      simp [FetchOutcome.isFailure] at hfail
  | networkError => exact ⟨rfl, rfl, rfl, rfl⟩
  | httpError status => exact ⟨rfl, rfl, rfl, rfl⟩
  | noHourly => exact ⟨rfl, rfl, rfl, rfl⟩

/-- Claim C5, witness: a network failure against an empty cache. -/
theorem C5_failure_not_cached_witness :
    (fetchWeatherData [] 0 ⟨1, 2, "2024-01-01", "2024-01-31", none⟩
      FetchOutcome.networkError []).cache = [] ∧
    (fetchWeatherData [] 0 ⟨1, 2, "2024-01-01", "2024-01-31", none⟩
      FetchOutcome.networkError []).data = [] ∧
    (fetchWeatherData [] 0 ⟨1, 2, "2024-01-01", "2024-01-31", none⟩
      FetchOutcome.networkError []).error.isSome = true ∧
    (fetchWeatherData [] 0 ⟨1, 2, "2024-01-01", "2024-01-31", none⟩
      FetchOutcome.networkError []).toasts =
      ["Error Loading Weather Data", "Using Mock Data"] :=
  C5_failure_not_cached [] 0 ⟨1, 2, "2024-01-01", "2024-01-31", none⟩
    FetchOutcome.networkError []
    (fun entry h => by simp [lookupKey] at h) rfl

/-- Claim C6: (1) a cache entry whose age is at least `TTL + 1` ms is
treated as absent — the call proceeds to the external request exactly
as if no entry existed; (2) an entry with age strictly below TTL is a
cache hit, returned with no request and no cache change; (3) an entry
whose age has reached TTL is dropped when the cache is loaded from
durable storage. Together: an entry is valid iff
`now - createdAt < TTL`. -/
theorem C6_ttl_validity :
    (∀ (cache : List (String × CacheEntry)) (now : Int)
        (p : WeatherParams) (outcome : FetchOutcome)
        (mock : List WeatherDataPoint) (entry : CacheEntry),
      lookupKey cache (generateCacheKey p) = some entry →
      CACHE_DURATION + 1 ≤ now - entry.timestamp →
      fetchWeatherData cache now p outcome mock =
        requestPath cache now p outcome mock) ∧
    (∀ (cache : List (String × CacheEntry)) (now : Int)
        (p : WeatherParams) (outcome : FetchOutcome)
        (mock : List WeatherDataPoint) (entry : CacheEntry),
      lookupKey cache (generateCacheKey p) = some entry →
      now - entry.timestamp < CACHE_DURATION →
      fetchWeatherData cache now p outcome mock =
        ⟨cache, entry.data, none, ["Data Loaded from Cache"]⟩) ∧
    (∀ (now : Int) (entries : List (String × CacheEntry))
        (kv : String × CacheEntry),
      kv ∈ entries → CACHE_DURATION ≤ now - kv.2.timestamp →
      kv ∉ loadCache now entries) := by
  refine ⟨?_, ?_, ?_⟩
  · intro cache now p outcome mock entry hlook hstale
    simp only [fetchWeatherData, hlook]
    rw [if_neg (by omega)]
  · intro cache now p outcome mock entry hlook hfresh
    simp only [fetchWeatherData, hlook]
    rw [if_pos hfresh]
  · intro now entries kv _ hold
    simp only [loadCache, List.mem_filter, decide_eq_true_eq, not_and]
    intro _
    omega

/-- Claim C6, witness: a stale entry (age `TTL + 1`) forces the
request path, a fresh entry (age 5 ms) is a cache hit, and an entry of
age exactly TTL is dropped on load. -/
theorem C6_ttl_validity_witness :
    fetchWeatherData [(generateCacheKey ⟨1, 2, "2024-01-01", "2024-01-31", none⟩,
        ⟨[], 0, "x"⟩)] (CACHE_DURATION + 1)
      ⟨1, 2, "2024-01-01", "2024-01-31", none⟩ FetchOutcome.noHourly [] =
      requestPath [(generateCacheKey ⟨1, 2, "2024-01-01", "2024-01-31", none⟩,
        ⟨[], 0, "x"⟩)] (CACHE_DURATION + 1)
        ⟨1, 2, "2024-01-01", "2024-01-31", none⟩ FetchOutcome.noHourly [] ∧
    fetchWeatherData [(generateCacheKey ⟨1, 2, "2024-01-01", "2024-01-31", none⟩,
        ⟨[], 0, "x"⟩)] 5
      ⟨1, 2, "2024-01-01", "2024-01-31", none⟩ FetchOutcome.noHourly [] =
      ⟨[(generateCacheKey ⟨1, 2, "2024-01-01", "2024-01-31", none⟩,
        ⟨[], 0, "x"⟩)], [], none, ["Data Loaded from Cache"]⟩ ∧
    ("k", (⟨[], 0, "x"⟩ : CacheEntry)) ∉
      loadCache CACHE_DURATION [("k", ⟨[], 0, "x"⟩)] :=
  ⟨C6_ttl_validity.1 _ _ _ _ _ ⟨[], 0, "x"⟩ (by simp [lookupKey])
      (by norm_num),
   C6_ttl_validity.2.1 _ _ _ _ _ ⟨[], 0, "x"⟩ (by simp [lookupKey])
      (by norm_num [CACHE_DURATION]),
   C6_ttl_validity.2.2 CACHE_DURATION [("k", ⟨[], 0, "x"⟩)]
      ("k", ⟨[], 0, "x"⟩) (by simp) (by norm_num)⟩

/-- Claim C8: `finishDrawing` with exactly 2 pending points creates no
polygon and leaves the whole session untouched (still drawing, same
pending points); with exactly 3 pending points it appends exactly one
polygon whose ring has 4 vertices with first equal to last, and
resets the session to idle. -/
theorem C8_finishDrawing (now : Int) (st2 st3 : DrawState)
    (ps : List Polygon)
    (h2d : st2.isDrawing = true) (h2 : st2.currentPolygon.length = 2)
    (h3 : st3.currentPolygon.length = 3) :
    finishDrawing now st2 ps = (st2, ps) ∧
    (finishDrawing now st3 ps).1.isDrawing = false ∧
    (finishDrawing now st3 ps).1.currentPolygon = [] ∧
    ∃ p : Polygon, (finishDrawing now st3 ps).2 = ps ++ [p] ∧
      p.coordinates.length = 4 ∧
      p.coordinates.head? = p.coordinates.getLast? := by
  obtain ⟨a, b, c, habc⟩ := List.length_eq_three.mp h3
  refine ⟨?_, ?_, ?_, ?_⟩
  · rw [finishDrawing, if_pos (by omega)]
  · rw [finishDrawing, if_neg (by omega)]
  · rw [finishDrawing, if_neg (by omega)]
  · rw [finishDrawing, if_neg (by omega)]
    refine ⟨_, rfl, ?_, ?_⟩
    · rw [habc]
      rfl
    · rw [habc]
      rfl

/-- Claim C8, witness: a concrete 2-point session is left open and a
concrete 3-point session produces one closed 4-vertex ring. -/
theorem C8_finishDrawing_witness :
    finishDrawing 0 ⟨true, [(0, 0), (1, 1)], ""⟩ [] =
      (⟨true, [(0, 0), (1, 1)], ""⟩, []) ∧
    (finishDrawing 0 ⟨true, [(0, 0), (1, 0), (0, 1)], "X"⟩ []).1.isDrawing
      = false ∧
    (finishDrawing 0 ⟨true, [(0, 0), (1, 0), (0, 1)], "X"⟩
      []).1.currentPolygon = [] ∧
    ∃ p : Polygon,
      (finishDrawing 0 ⟨true, [(0, 0), (1, 0), (0, 1)], "X"⟩ []).2 =
        [] ++ [p] ∧
      p.coordinates.length = 4 ∧
      p.coordinates.head? = p.coordinates.getLast? :=
  C8_finishDrawing 0 ⟨true, [(0, 0), (1, 1)], ""⟩
    ⟨true, [(0, 0), (1, 0), (0, 1)], "X"⟩ [] rfl rfl rfl

/-- Claim C9, counterexample: not every tick advances the window by 1.
In single-point mode at hour 719 with playback active, the tick
leaves the hour at 719 (the claimed advance to 720 never happens) and
pauses playback: the code stops when the advancing edge WOULD reach
720, so the edge never actually reaches 720 under playback. -/
theorem C9_counterexample :
    (⟨false, true, 719, 336, 384⟩ : TimelineState).isPlaying = true ∧
    (⟨false, true, 719, 336, 384⟩ : TimelineState).isRangeMode = false ∧
    (tick ⟨false, true, 719, 336, 384⟩).currentValue ≠
      (⟨false, true, 719, 336, 384⟩ : TimelineState).currentValue + 1 ∧
    (tick ⟨false, true, 719, 336, 384⟩).currentValue = 719 ∧
    (tick ⟨false, true, 719, 336, 384⟩).isPlaying = false := by
  have ht : tick ⟨false, true, 719, 336, 384⟩ =
      ⟨false, false, 719, 336, 384⟩ := by
    simp [tick, maxHours, min_def]
  rw [ht]
  exact ⟨rfl, rfl, by decide, rfl, rfl⟩

/-- Claim C9 as amended: while playback is active, a tick either
advances the window by exactly 1 on each edge (range mode, width
preserved) or the hour by 1 (single-point mode) — when the advanced
edge would stay strictly below 720 — or, when it would reach 720,
pauses playback and leaves the window unchanged. Consequently the
window never leaves `[0, 720]` under playback ticks. -/
theorem C9_tick_advance_or_pause (s : TimelineState)
    (hp : s.isPlaying = true) :
    (s.isRangeMode = true → s.rangeStart ≤ s.rangeEnd →
      (s.rangeEnd + 1 < maxHours →
        tick s = { s with rangeStart := s.rangeStart + 1,
                          rangeEnd := s.rangeEnd + 1 }) ∧
      (maxHours ≤ s.rangeEnd + 1 →
        tick s = { s with isPlaying := false })) ∧
    (s.isRangeMode = false →
      (s.currentValue + 1 < maxHours →
        tick s = { s with currentValue := s.currentValue + 1 }) ∧
      (maxHours ≤ s.currentValue + 1 →
        tick s = { s with isPlaying := false })) ∧
    (0 ≤ s.rangeStart → s.rangeEnd ≤ maxHours →
      s.rangeStart ≤ s.rangeEnd →
      0 ≤ (tick s).rangeStart ∧ (tick s).rangeEnd ≤ maxHours ∧
        (tick s).rangeStart ≤ (tick s).rangeEnd) ∧
    (0 ≤ s.currentValue → s.currentValue ≤ maxHours →
      0 ≤ (tick s).currentValue ∧ (tick s).currentValue ≤ maxHours) := by
  obtain ⟨mr, mp, cv, rs, re⟩ := s
  simp only at hp
  subst hp
  have hnotfalse : ¬ ((true : Bool) = false) := by simp
  cases mr with
  | true =>
      refine ⟨?_, by intro h; exact absurd h (by simp), ?_, ?_⟩
      · intro _ hse
        constructor
        · intro hlt
          rw [tick, if_neg hnotfalse, if_pos rfl]
          simp only [maxHours] at hlt ⊢
          rw [if_neg (by omega)]
          have h1 : min (re + 1) 720 = re + 1 := by omega
          have h2 : min (rs + 1) (720 - (re - rs)) = rs + 1 := by omega
          simp only [h1, h2]
        · intro hge
          rw [tick, if_neg hnotfalse, if_pos rfl]
          simp only [maxHours] at hge ⊢
          rw [if_pos (by omega)]
      · intro h0 h720 hse
        rw [tick, if_neg hnotfalse, if_pos rfl]
        simp only [maxHours] at h720 ⊢
        by_cases hstop : (720 : Int) ≤ min (re + 1) 720
        · rw [if_pos hstop]
          exact ⟨h0, h720, hse⟩
        · rw [if_neg hstop]
          refine ⟨?_, ?_, ?_⟩ <;> (dsimp only at *; omega)
      · intro h0 h720
        rw [tick, if_neg hnotfalse, if_pos rfl]
        by_cases hstop : maxHours ≤ min (re + 1) maxHours
        · rw [if_pos hstop]
          exact ⟨h0, h720⟩
        · rw [if_neg hstop]
          exact ⟨h0, h720⟩
  | false =>
      refine ⟨by intro h; exact absurd h (by simp), ?_, ?_, ?_⟩
      · intro _
        constructor
        · intro hlt
          rw [tick, if_neg hnotfalse, if_neg (by simp)]
          simp only [maxHours] at hlt ⊢
          rw [if_neg (by omega)]
          have h1 : min (cv + 1) 720 = cv + 1 := by omega
          simp only [h1]
        · intro hge
          rw [tick, if_neg hnotfalse, if_neg (by simp)]
          simp only [maxHours] at hge ⊢
          rw [if_pos (by omega)]
      · intro h0 h720 hse
        rw [tick, if_neg hnotfalse, if_neg (by simp)]
        by_cases hstop : maxHours ≤ min (cv + 1) maxHours
        · rw [if_pos hstop]
          exact ⟨h0, h720, hse⟩
        · rw [if_neg hstop]
          exact ⟨h0, h720, hse⟩
      · intro h0 h720
        rw [tick, if_neg hnotfalse, if_neg (by simp)]
        simp only [maxHours] at h720 ⊢
        by_cases hstop : (720 : Int) ≤ min (cv + 1) 720
        · rw [if_pos hstop]
          exact ⟨h0, h720⟩
        · rw [if_neg hstop]
          refine ⟨?_, ?_⟩ <;> (dsimp only at *; omega)

/-- Claim C9 as amended, witness: a concrete playing range-mode state
`(336, 384)` advances to `(337, 385)` on one tick. -/
theorem C9_tick_advance_or_pause_witness :
    tick ⟨true, true, 360, 336, 384⟩ =
      (⟨true, true, 360, 337, 385⟩ : TimelineState) :=
  ((C9_tick_advance_or_pause ⟨true, true, 360, 336, 384⟩ rfl).1 rfl
    (by norm_num)).1 (by norm_num [maxHours])

end DashboardMaps
